import Mathlib

/-!
Shallow embedding of the FOGO testnet bot (airdrop.py, transaction.py,
swap.py, worker.py, utils.py, network.py, config.py).

The program is async HTTP client code.  Each remote interaction is modelled
by an explicit environment value describing what the remote side (or the
local runtime) does at that call site: either a response, or a raised
exception.  Python `try/except` blocks become matches on `Except PyExc _`;
machine integers (lamport balances, token amounts, HTTP statuses) are `Nat`;
truthiness of a JSON string field is modelled as the string being non-empty.
-/

namespace Fogo

/-- Model of a raised Python exception.  `perform_swap` (swap.py:68-73)
distinguishes `aiohttp.ClientError` from any other `Exception`; both handlers
return 0, and every other handler in the program catches bare `Exception`. -/
inductive PyExc
  | clientError
  | other
deriving DecidableEq, Repr

/-! ## String helpers (Python `in` on strings, `str.strip('"')`) -/

/-- `matchesAt needle hay`: the needle occurs at the head of the haystack. -/
def matchesAt : List Char → List Char → Bool
  | [], _ => true
  | _ :: _, [] => false
  | a :: as, b :: bs => a == b && matchesAt as bs

/-- `hasSub hay needle`: the needle occurs somewhere in the haystack
(Python `needle in hay` on strings). -/
def hasSub (hay needle : List Char) : Bool :=
  match hay with
  | [] => needle.isEmpty
  | _ :: t => matchesAt needle hay || hasSub t needle

/-- Python `needle in hay` for strings. -/
def strContains (hay needle : String) : Bool :=
  hasSub hay.toList needle.toList

/-- Python `s.strip('"')`: remove every leading and trailing `"` character
(transaction.py:141). -/
def stripQuotes (s : String) : String :=
  ⟨((s.toList.dropWhile (· == '"')).reverse.dropWhile (· == '"')).reverse⟩

/-! ## transaction.py -/

/-- The well-known all-ones placeholder signature (transaction.py:109),
64 `'1'` characters. -/
def PLACEHOLDER_SIG : String :=
  "1111111111111111111111111111111111111111111111111111111111111111"

/-- Environment for one `send_transaction_paymaster` call: either the HTTP
round trip raises, or it yields a status code and a response body text. -/
inductive PayEnv
  | exc (e : PyExc)
  | resp (status : Nat) (body : String)
deriving DecidableEq, Repr

/-- transaction.py:125-161, `send_transaction_paymaster(session, raw_tx, ...)`.
On HTTP 200 the body text, with surrounding quotes stripped, is accepted as
the reference id when it is non-empty, not `"null"`, and longer than 10
characters; every other outcome (other statuses, raised exceptions) is
`(False, "")`.  The request payload `raw_tx` does not influence the
classification of the response. -/
def send_transaction_paymaster (env : PayEnv) (_raw_tx : String) : Bool × String :=
  match env with
  | .exc _ => (false, "")
  | .resp status body =>
    if status = 200 then
      let result := stripQuotes body
      if result ≠ "" ∧ result ≠ "null" ∧ 10 < result.length then
        (true, result)
      else
        (false, "")
    else
      (false, "")

/-- Environment for one `send_transaction_rpc` call: a raised exception, or a
status code together with the JSON `result` field (`none` = key absent,
`some ""` = key present but falsy). -/
inductive RpcSendEnv
  | exc (e : PyExc)
  | resp (status : Nat) (result : Option String)
deriving DecidableEq, Repr

/-- transaction.py:79-122, `send_transaction_rpc(session, tx_bytes, ...)`.
Success is HTTP 200 with a present, truthy `result` field; the all-ones
signature is reported as the sentinel `"placeholder"`.  The submitted bytes
do not influence the classification of the response. -/
def send_transaction_rpc (env : RpcSendEnv) (_tx_bytes : List Nat) : Bool × String :=
  match env with
  | .exc _ => (false, "")
  | .resp status result =>
    if status = 200 then
      match result with
      | some tx_sig =>
        if tx_sig ≠ "" then
          if tx_sig ≠ PLACEHOLDER_SIG then (true, tx_sig)
          else (true, "placeholder")
        else (false, "")
      | none => (false, "")
    else (false, "")

/-! ## network.py -/

/-- JSON shape of a `getBalance` response: HTTP status, and
`data['result']['value']` when both keys are present. -/
structure BalResp where
  status : Nat
  value : Option Nat
deriving DecidableEq, Repr

/-- network.py:149-174, `get_balance_rpc(session, pubkey)`.  Returns the
reported lamport value on HTTP 200 with the expected JSON shape; 0 on any
other shape, status or raised exception (the caller cannot distinguish
"zero balance" from "query failed"). -/
def get_balance_rpc (env : Except PyExc BalResp) : Nat :=
  match env with
  | .error _ => 0
  | .ok resp =>
    if resp.status = 200 then
      match resp.value with
      | some v => v
      | none => 0
    else 0

/-! ## airdrop.py -/

/-- JSON-RPC response shape used by the official and devnet airdrop channels:
HTTP status, the `result` field (`none` = absent, `some ""` = present but
falsy), and the `error.message` field when an `error` key is present. -/
structure RpcAirResp where
  status : Nat
  result : Option String
  errMsg : Option String
deriving DecidableEq, Repr

/-- The funding channels of `request_airdrop`, in priority order. -/
inductive AirChannel
  | official
  | altFaucets
  | devnet
deriving DecidableEq, Repr

/-- Environment for one `request_airdrop` call: the official FOGO RPC
response, the status of each alternative faucet endpoint attempt
(airdrop.py hard-codes two endpoints; the loop is modelled over the list),
and the Solana devnet fallback response.  Each entry is a raised exception
or a response. -/
structure AirdropEnv where
  official : Except PyExc RpcAirResp
  alts : List (Except PyExc Nat)
  devnet : Except PyExc RpcAirResp
deriving Repr

/-- airdrop.py:86, the "rate limit / already funded" pattern: some keyword of
`['limit', 'already', 'funded', 'recent']` occurs in the lowercased error
message. -/
def limitPattern (errorMsg : String) : Bool :=
  ["limit", "already", "funded", "recent"].any
    (fun keyword => strContains errorMsg.toLower keyword)

/-- airdrop.py:56-95, `_try_official_fogo_airdrop`.  Success is HTTP 200 with
a truthy `result`, or (elif) an `error` whose message matches
`limitPattern`; raised exceptions are caught and every other shape falls
through to `False`. -/
def try_official_fogo_airdrop (env : Except PyExc RpcAirResp) : Bool :=
  match env with
  | .error _ => false
  | .ok resp =>
    if resp.status = 200 then
      let resultTruthy := match resp.result with
        | some s => s != ""
        | none => false
      if resultTruthy then true
      else
        match resp.errMsg with
        | some msg => limitPattern msg
        | none => false
    else false

/-- airdrop.py:98-134, `_try_alternative_faucets`.  Tries each endpoint in
order; success is HTTP status 200 or 201; exceptions continue to the next
endpoint.  The returned boolean equals: some attempt reported 200/201. -/
def try_alternative_faucets (alts : List (Except PyExc Nat)) : Bool :=
  alts.any (fun r =>
    match r with
    | .ok status => status = 200 || status = 201
    | .error _ => false)

/-- airdrop.py:137-166, `_try_devnet_fallback`.  Success is HTTP 200 with a
truthy `result`; the `error` field is never inspected. -/
def try_devnet_fallback (env : Except PyExc RpcAirResp) : Bool :=
  match env with
  | .error _ => false
  | .ok resp =>
    if resp.status = 200 then
      match resp.result with
      | some s => s != ""
      | none => false
    else false

/-- airdrop.py:21-53, `request_airdrop(session, pubkey, proxy)`, instrumented
with the list of channels actually invoked, in order.  Each channel helper
catches its own exceptions; the surrounding `try` of `request_airdrop`
protects only non-raising setup code (header construction), so the
short-circuiting `if` chain is the whole behaviour. -/
def request_airdrop (env : AirdropEnv) : Bool × List AirChannel :=
  if try_official_fogo_airdrop env.official then
    (true, [.official])
  else if try_alternative_faucets env.alts then
    (true, [.official, .altFaucets])
  else if try_devnet_fallback env.devnet then
    (true, [.official, .altFaucets, .devnet])
  else
    (false, [.official, .altFaucets, .devnet])

/-! ## transaction.py — signing -/

/-- Environment for one `deserialize_and_sign_transaction` call: the outcome
(result bytes, or a raised exception) of the solders signing attempt
(transaction.py:43-62, including the case `TRANSACTION_TYPE` is not
`"solders"`, where the guarded body is skipped and control falls through,
modelled as an exception-free fall-through via `.error`) and of the legacy
signing attempt (transaction.py:64-72, likewise when `Transaction is None`). -/
structure SignEnv where
  solders : Except PyExc (List Nat)
  legacy : Except PyExc (List Nat)
deriving Repr

/-- transaction.py:38-76, `deserialize_and_sign_transaction(raw_tx_bytes,
wallet)`, in an exception-propagating semantics: each `try` block either
yields signed bytes or its exception is caught and the next method is tried;
the final fallback returns the original bytes.  Every source path ends in a
`return`, so no branch produces `.error`. -/
def deserialize_and_sign_transactionE (env : SignEnv) (raw_tx_bytes : List Nat) :
    Except PyExc (List Nat) :=
  match env.solders with
  | .ok signed => .ok signed
  | .error _ =>
    match env.legacy with
    | .ok signed => .ok signed
    | .error _ => .ok raw_tx_bytes

/-- The total value of `deserialize_and_sign_transaction`. -/
def deserialize_and_sign_transaction (env : SignEnv) (raw_tx_bytes : List Nat) : List Nat :=
  match env.solders with
  | .ok signed => signed
  | .error _ =>
    match env.legacy with
    | .ok signed => signed
    | .error _ => raw_tx_bytes

/-! ## swap.py -/

/-- A parsed quote, swap.py:147-151. -/
structure Quote where
  token_min_out : Nat
  pool_address : String
  is_fogo_to_fusd : Bool
deriving DecidableEq, Repr

/-- Environment for one `_get_swap_quote` call: a raised exception at any
point of the request/parse (all caught by swap.py:153-155 and turned into
`None`), a 200-response JSON lacking the `"quote"` key (swap.py:143-145),
or a well-formed quote. -/
inductive QuoteEnv
  | exc (e : PyExc)
  | missingQuote
  | ok (tokenMinOut : Nat) (poolAddress : String)
deriving DecidableEq, Repr

/-- swap.py:107-155, `_get_swap_quote(session, amount_in, direction, ...)`.
The request carries `inputAmount = amount_in`; the response classification
does not depend on it. -/
def get_swap_quote (env : QuoteEnv) (_amount_in : Nat) (direction : String) : Option Quote :=
  match env with
  | .exc _ => none
  | .missingQuote => none
  | .ok m p => some ⟨m, p, direction == "FOGO_TO_FUSD"⟩

/-- The transaction payload returned by `_get_swap_transaction`,
swap.py:200-203: the base64 text and its decoded bytes. -/
structure TxData where
  raw_tx : String
  raw_tx_bytes : List Nat
deriving DecidableEq, Repr

/-- Environment for one `_get_swap_transaction` call: a raised exception
(caught, swap.py:205-207), a 200-response lacking `"serializedTx"`
(swap.py:196-198), or a serialized transaction. -/
inductive TxEnv
  | exc (e : PyExc)
  | missingSerializedTx
  | ok (rawTx : String) (rawBytes : List Nat)
deriving DecidableEq, Repr

/-- swap.py:158-207, `_get_swap_transaction(session, wallet, amount_in, ...)`.
The request carries `inputAmount = amount_in`; the response classification
does not depend on it. -/
def get_swap_transaction (env : TxEnv) (_amount_in : Nat) : Option TxData :=
  match env with
  | .exc _ => none
  | .missingSerializedTx => none
  | .ok rawTx rawBytes => some ⟨rawTx, rawBytes⟩

/-- swap.py:210-245, `_execute_transaction(session, wallet, tx_data, ...)`,
instrumented: the second component records whether the `except` handler
around the signing step (swap.py:220-222, falling back to the unsigned
bytes) actually ran.  The paymaster receives the original base64 text, the
RPC fallback the (possibly signed) bytes. -/
def execute_transaction (signEnv : SignEnv) (payEnv : PayEnv) (rpcEnv : RpcSendEnv)
    (tx_data : TxData) : Bool × Bool :=
  let signStep : List Nat × Bool :=
    match deserialize_and_sign_transactionE signEnv tx_data.raw_tx_bytes with
    | .ok s => (s, false)
    | .error _ => (tx_data.raw_tx_bytes, true)
  let serialized_tx := signStep.1
  let pay := send_transaction_paymaster payEnv tx_data.raw_tx
  if pay.1 then
    (true, signStep.2)
  else
    let rpc := send_transaction_rpc rpcEnv serialized_tx
    (rpc.1, signStep.2)

/-- swap.py:85, `adjusted_amount = int(balance * 0.8)`: 80% of the available
balance.  (For lamport balances below 2^53 the float product is exact enough
that truncation agrees with `balance * 8 / 10` on `Nat`.)  The value is
computed at swap.py:85 but never substituted into any request. -/
def adjusted_amount (balance : Nat) : Nat :=
  balance * 8 / 10

/-- Result of `_ensure_sufficient_balance`, instrumented with the number of
`request_airdrop` invocations and the `asyncio.sleep` confirmation delays
(in seconds) executed. -/
structure FundTrace where
  ok : Bool
  fundingAttempts : Nat
  sleeps : List Nat
deriving DecidableEq, Repr

/-- swap.py:76-104, `_ensure_sufficient_balance(session, wallet, balance,
amount_in, ...)`.  Sufficient balance passes immediately; a positive balance
above the 100000-lamport usability threshold also passes (the adjusted
amount of swap.py:85 is computed but only logged); otherwise a single
airdrop is requested and, on success, a 5-second sleep and one balance
re-query decide the outcome. -/
def ensure_sufficient_balance (airdropEnv : AirdropEnv)
    (balance2Env : Except PyExc BalResp) (balance amount_in : Nat) : FundTrace :=
  let fund : FundTrace :=
    if (request_airdrop airdropEnv).1 then
      let new_balance := get_balance_rpc balance2Env
      ⟨decide (new_balance ≥ amount_in), 1, [5]⟩
    else
      ⟨false, 1, []⟩
  if balance ≥ amount_in then ⟨true, 0, []⟩
  else if balance > 0 then
    if balance > 100000 then ⟨true, 0, []⟩
    else fund
  else fund

/-- Environment for one `perform_swap` call: one entry per remote
interaction the operation can make, in program order. -/
structure SwapEnv where
  balance1 : Except PyExc BalResp
  airdrop : AirdropEnv
  balance2 : Except PyExc BalResp
  quote : QuoteEnv
  tx : TxEnv
  sign : SignEnv
  paymaster : PayEnv
  rpc : RpcSendEnv
deriving Repr

/-- Instrumentation of one `perform_swap` invocation: airdrop attempts and
confirmation sleeps, and the `inputAmount` parameters sent with the quote
request and the transaction-build request. -/
structure SwapTrace where
  fundingAttempts : Nat
  sleeps : List Nat
  quoteAmounts : List Nat
  txAmounts : List Nat
deriving DecidableEq, Repr

/-- swap.py:34-66, the body of `perform_swap` inside its `try`, in an
exception-propagating semantics.  Every helper catches its own exceptions
and is total, and every branch of the body itself is a `return`, so no
branch produces `.error`; the handlers of swap.py:68-73 are modelled in
`perform_swapRun`. -/
def perform_swapBody (env : SwapEnv) (amount_in : Nat) (direction : String) :
    Except PyExc (Nat × SwapTrace) :=
  let balance := get_balance_rpc env.balance1
  let f := ensure_sufficient_balance env.airdrop env.balance2 balance amount_in
  let t0 : SwapTrace := ⟨f.fundingAttempts, f.sleeps, [], []⟩
  if ¬ f.ok then .ok (0, t0)
  else
    match get_swap_quote env.quote amount_in direction with
    | none => .ok (0, { t0 with quoteAmounts := [amount_in] })
    | some quote_data =>
      let t1 := { t0 with quoteAmounts := [amount_in] }
      match get_swap_transaction env.tx amount_in with
      | none => .ok (0, { t1 with txAmounts := [amount_in] })
      | some tx_data =>
        let t2 := { t1 with txAmounts := [amount_in] }
        let success := (execute_transaction env.sign env.paymaster env.rpc tx_data).1
        if success then .ok (quote_data.token_min_out, t2)
        else if quote_data.token_min_out > 0 then .ok (quote_data.token_min_out, t2)
        else .ok (0, t2)

/-- swap.py:31-73, `perform_swap(session, wallet, amount_in, direction,
proxy)`: the body wrapped in the two handlers (`except aiohttp.ClientError`
and `except Exception`), both of which return 0. -/
def perform_swapRun (env : SwapEnv) (amount_in : Nat) (direction : String) :
    Nat × SwapTrace :=
  match perform_swapBody env amount_in direction with
  | .ok r => r
  | .error .clientError => (0, ⟨0, [], [], []⟩)
  | .error .other => (0, ⟨0, [], [], []⟩)

/-- The amount returned by `perform_swap` (its only observable to the
worker). -/
def perform_swap (env : SwapEnv) (amount_in : Nat) (direction : String) : Nat :=
  (perform_swapRun env amount_in direction).1

/-! ## worker.py -/

/-- worker.py:47-52, the per-worker statistics accumulator. -/
structure WorkerStats where
  successful_swaps : Nat
  failed_swaps : Nat
  total_volume : Nat
  worker_name : Nat
deriving DecidableEq, Repr

/-- worker.py:67-74: record one swap outcome. -/
def workerUpdate (stats : WorkerStats) (amount_in result : Nat) : WorkerStats :=
  if result > 0 then
    { stats with
        successful_swaps := stats.successful_swaps + 1
        total_volume := stats.total_volume + amount_in }
  else
    { stats with failed_swaps := stats.failed_swaps + 1 }

/-- worker.py:54-83, the loop of `worker(name, wallet, swaps, ...)`: one
cycle per requested swap, each drawing an amount (the weighted random
choice, supplied by the environment) and an environment for
`perform_swap` with direction `FOGO_TO_FUSD`, and recording the
outcome.  The inter-cycle adaptive sleep does not touch the statistics. -/
def workerLoop (name : Nat) (cycles : List (Nat × SwapEnv)) : WorkerStats :=
  cycles.foldl
    (fun stats c => workerUpdate stats c.1 (perform_swap c.2 c.1 "FOGO_TO_FUSD"))
    ⟨0, 0, 0, name⟩

/-! ## utils.py / worker.py — adaptive delay -/

/-- config.py:53: minimum delay between transactions, 0.1 s. -/
def MIN_TRANSACTION_DELAY : ℚ := 1 / 10

/-- utils.py:142-154, `calculate_adaptive_delay(base_min, base_max,
failure_rate)`.  `draw` models the `random.uniform(base_min, base_max)`
sample, supplied by the environment (theorems constrain it to
`[base_min, base_max]`); the float thresholds 0.5 and 0.3 are the rationals
1/2 and 3/10. -/
def calculate_adaptive_delay (_base_min _base_max draw failure_rate : ℚ) : ℚ :=
  let multiplier : ℚ :=
    if failure_rate > 1 / 2 then 2
    else if failure_rate > 3 / 10 then 3 / 2
    else 1
  draw * multiplier

/-- worker.py:86-105, the sleep time computed by `_adaptive_sleep`:
the adaptive delay floored at `MIN_TRANSACTION_DELAY` (worker.py:98). -/
def adaptive_sleep_time (base_min base_max draw failure_rate : ℚ) : ℚ :=
  max (calculate_adaptive_delay base_min base_max draw failure_rate) MIN_TRANSACTION_DELAY

/-! ## Concrete sample environments, used by the witnesses -/

/-- An environment in which every remote call raises. -/
def swapEnvFail : SwapEnv :=
  ⟨.error .other, ⟨.error .other, [], .error .other⟩, .error .other,
   .exc .other, .exc .other, ⟨.error .other, .error .other⟩, .exc .other, .exc .other⟩

/-- An environment with a funded wallet and a successful paymaster
submission. -/
def swapEnvOk : SwapEnv :=
  ⟨.ok ⟨200, some 1000000000⟩, ⟨.error .other, [], .error .other⟩, .error .other,
   .ok 500 "pool", .ok "tx64" [1, 2], ⟨.ok [9, 9], .error .other⟩,
   .resp 200 "abcdefghij12", .exc .other⟩

/-- An environment with a zero balance, a successful official airdrop, and a
still-empty post-airdrop balance. -/
def swapEnvFundShort : SwapEnv :=
  ⟨.ok ⟨200, some 0⟩, ⟨.ok ⟨200, some "sig", none⟩, [], .error .other⟩,
   .ok ⟨200, some 0⟩, .exc .other, .exc .other,
   ⟨.error .other, .error .other⟩, .exc .other, .exc .other⟩

/-- An environment with a positive balance above the usability threshold but
below the requested amount. -/
def swapEnvLowButUsable : SwapEnv :=
  ⟨.ok ⟨200, some 200000⟩, ⟨.error .other, [], .error .other⟩, .error .other,
   .ok 7 "pool", .exc .other, ⟨.error .other, .error .other⟩, .exc .other, .exc .other⟩

/-- An airdrop environment in which the official channel succeeds with a
transaction reference. -/
def airEnvOfficialOk : AirdropEnv :=
  ⟨.ok ⟨200, some "sig", none⟩, [.error .other], .error .other⟩

/-- A signing environment in which both signing methods raise. -/
def signEnvBothFail : SignEnv :=
  ⟨.error .other, .error .other⟩

/-! ## Theorems -/

/-- Branch-level characterization of `perform_swapRun`: the handler of
swap.py:68-73 never fires, so the function returns the branch values of the
body directly. -/
theorem perform_swapRun_eq (env : SwapEnv) (amount_in : Nat) (direction : String) :
    perform_swapRun env amount_in direction =
      (let f := ensure_sufficient_balance env.airdrop env.balance2
        (get_balance_rpc env.balance1) amount_in
      if ¬ f.ok then (0, ⟨f.fundingAttempts, f.sleeps, [], []⟩)
      else
        match get_swap_quote env.quote amount_in direction with
        | none => (0, ⟨f.fundingAttempts, f.sleeps, [amount_in], []⟩)
        | some quote_data =>
          match get_swap_transaction env.tx amount_in with
          | none => (0, ⟨f.fundingAttempts, f.sleeps, [amount_in], [amount_in]⟩)
          | some tx_data =>
            if (execute_transaction env.sign env.paymaster env.rpc tx_data).1 then
              (quote_data.token_min_out,
                ⟨f.fundingAttempts, f.sleeps, [amount_in], [amount_in]⟩)
            else if quote_data.token_min_out > 0 then
              (quote_data.token_min_out,
                ⟨f.fundingAttempts, f.sleeps, [amount_in], [amount_in]⟩)
            else (0, ⟨f.fundingAttempts, f.sleeps, [amount_in], [amount_in]⟩)) := by
  rcases hF : ensure_sufficient_balance env.airdrop env.balance2
    (get_balance_rpc env.balance1) amount_in with ⟨ok, n, sl⟩
  cases ok
  · simp [perform_swapRun, perform_swapBody, hF]
  · rcases hq : get_swap_quote env.quote amount_in direction with _ | q
    · simp [perform_swapRun, perform_swapBody, hF, hq]
    · rcases ht : get_swap_transaction env.tx amount_in with _ | t
      · simp [perform_swapRun, perform_swapBody, hF, hq, ht]
      · by_cases hs : (execute_transaction env.sign env.paymaster env.rpc t).1 = true
        · simp [perform_swapRun, perform_swapBody, hF, hq, ht, hs]
        · by_cases hz : 0 < q.token_min_out <;>
            simp [perform_swapRun, perform_swapBody, hF, hq, ht, hs, hz]

/-- The funding-attempt count recorded by `perform_swapRun` is exactly the
one of `_ensure_sufficient_balance`. -/
theorem perform_swapRun_fundingAttempts (env : SwapEnv) (a : Nat) (d : String) :
    (perform_swapRun env a d).2.fundingAttempts =
      (ensure_sufficient_balance env.airdrop env.balance2
        (get_balance_rpc env.balance1) a).fundingAttempts := by
  rw [perform_swapRun_eq]
  by_cases hok : (ensure_sufficient_balance env.airdrop env.balance2
      (get_balance_rpc env.balance1) a).ok = true
  · rcases hq : get_swap_quote env.quote a d with _ | q
    · simp [hok, hq]
    · rcases ht : get_swap_transaction env.tx a with _ | t
      · simp [hok, hq, ht]
      · by_cases hs : (execute_transaction env.sign env.paymaster env.rpc t).1 = true
        · simp [hok, hq, ht, hs]
        · by_cases hz : 0 < q.token_min_out <;> simp [hok, hq, ht, hs, hz]
  · simp [hok]

/-- Claim C5: for the fallback (direct RPC) submission channel, success is an
HTTP 200 response whose JSON contains a non-empty `result` field; the
64-character all-ones signature maps to the sentinel `"placeholder"`, any
other non-empty result is returned as-is, and every other response shape
(or a raised exception) yields `(false, "")`. -/
theorem send_transaction_rpc_classification :
    ∀ (tx_bytes : List Nat) (status : Nat) (result : Option String),
      ((send_transaction_rpc (.resp status result) tx_bytes).1 = true ↔
        (status = 200 ∧ ∃ s, result = some s ∧ s ≠ "")) ∧
      (status = 200 → result = some PLACEHOLDER_SIG →
        send_transaction_rpc (.resp status result) tx_bytes = (true, "placeholder")) ∧
      (∀ s, status = 200 → result = some s → s ≠ "" → s ≠ PLACEHOLDER_SIG →
        send_transaction_rpc (.resp status result) tx_bytes = (true, s)) ∧
      (¬ (status = 200 ∧ ∃ s, result = some s ∧ s ≠ "") →
        send_transaction_rpc (.resp status result) tx_bytes = (false, "")) ∧
      (∀ e, send_transaction_rpc (.exc e) tx_bytes = (false, "")) := by
  intro tx_bytes status result
  refine ⟨?_, ?_, ?_, ?_, ?_⟩
  · constructor
    · intro h
      simp only [send_transaction_rpc] at h
      by_cases hs : status = 200
      · subst hs
        rcases result with _ | s
        · simp at h
        · by_cases he : s = ""
          · subst he; simp at h
          · exact ⟨rfl, s, rfl, he⟩
      · rw [if_neg hs] at h; simp at h
    · rintro ⟨hs, s, hr, hne⟩
      subst hs; subst hr
      by_cases hp : s = PLACEHOLDER_SIG
      · subst hp; rfl
      · simp only [send_transaction_rpc]
        simp [hne, hp]
  · intro hs hr
    subst hs; subst hr
    rfl
  · intro s hs hr hne hp
    subst hs; subst hr
    simp only [send_transaction_rpc]
    simp [hne, hp]
  · intro h
    simp only [send_transaction_rpc]
    by_cases hs : status = 200
    · subst hs
      rcases result with _ | s
      · simp
      · by_cases he : s = ""
        · subst he; simp
        · exact absurd ⟨rfl, s, rfl, he⟩ h
    · rw [if_neg hs]
  · intro e
    rfl

/-- Claim C5 witness: the all-ones placeholder case evaluated concretely. -/
theorem send_transaction_rpc_classification_witness :
    send_transaction_rpc (.resp 200 (some PLACEHOLDER_SIG)) [] = (true, "placeholder") :=
  (send_transaction_rpc_classification [] 200 (some PLACEHOLDER_SIG)).2.1 rfl rfl

/-- Claim C2 counterexample: a primary-channel response of status 200 and
body `"abc1234567"` (10 characters) is rejected — `len(result) > 10` fails —
so `send_transaction_paymaster` returns `(false, "")`, not
`(true, "abc1234567")` as claimed. -/
theorem paymaster_ten_char_body_rejected :
    send_transaction_paymaster (.resp 200 "abc1234567") "" = (false, "") ∧
    send_transaction_paymaster (.resp 200 "abc1234567") "" ≠ (true, "abc1234567") := by
  constructor
  · decide
  · decide

/-- Claim C2 (amended): for the primary (paymaster) channel, an HTTP 200
response whose body, after stripping quotes, is non-empty, not `"null"`, and
strictly longer than 10 characters is classified as success with that body
as the reference id. -/
theorem paymaster_success_iff_long_body :
    ∀ (body raw : String),
      stripQuotes body ≠ "" → stripQuotes body ≠ "null" →
      10 < (stripQuotes body).length →
      send_transaction_paymaster (.resp 200 body) raw = (true, stripQuotes body) := by
  intro body raw h1 h2 h3
  simp [send_transaction_paymaster, h1, h2, h3]

/-- Claim C2 witness: the 11-character body `"abc12345678"` is accepted with
itself as the reference id. -/
theorem paymaster_success_iff_long_body_witness :
    stripQuotes "abc12345678" ≠ "" ∧ stripQuotes "abc12345678" ≠ "null" ∧
    10 < (stripQuotes "abc12345678").length ∧
    send_transaction_paymaster (.resp 200 "abc12345678") "" = (true, stripQuotes "abc12345678") :=
  ⟨by decide, by decide, by decide,
   paymaster_success_iff_long_body "abc12345678" "" (by decide) (by decide) (by decide)⟩

/-- Claim C8: the adaptive delay multiplier is 2 above failure rate 1/2,
3/2 above 3/10, and 1 otherwise, and for every uniform draw within
`[base_min, base_max]` the actual sleep time is floored at
`MIN_TRANSACTION_DELAY`, even when `base_min = 0`. -/
theorem adaptive_delay_multiplier_floor :
    ∀ (base_min base_max draw failure_rate : ℚ),
      base_min ≤ draw → draw ≤ base_max →
      (failure_rate > 1 / 2 →
        calculate_adaptive_delay base_min base_max draw failure_rate = draw * 2) ∧
      (failure_rate > 3 / 10 → failure_rate ≤ 1 / 2 →
        calculate_adaptive_delay base_min base_max draw failure_rate = draw * (3 / 2)) ∧
      (failure_rate ≤ 3 / 10 →
        calculate_adaptive_delay base_min base_max draw failure_rate = draw) ∧
      MIN_TRANSACTION_DELAY ≤ adaptive_sleep_time base_min base_max draw failure_rate := by
  intro bmin bmax draw rate _ _
  refine ⟨fun h1 => ?_, fun h2 h3 => ?_, fun h4 => ?_, ?_⟩
  · unfold calculate_adaptive_delay
    rw [if_pos h1]
  · unfold calculate_adaptive_delay
    rw [if_neg (not_lt.mpr h3), if_pos h2]
  · unfold calculate_adaptive_delay
    rw [if_neg (not_lt.mpr (h4.trans (by norm_num))), if_neg (not_lt.mpr h4), mul_one]
  · exact le_max_right _ _

/-- Claim C8 witness: rates 6/10, 35/100 and 1/10 give multipliers 2, 3/2
and 1, and with `base_min = 0` and a zero draw the sleep time still meets
the floor. -/
theorem adaptive_delay_multiplier_floor_witness :
    calculate_adaptive_delay 0 1 (1 / 2) (6 / 10) = (1 / 2 : ℚ) * 2 ∧
    calculate_adaptive_delay 0 1 (1 / 2) (35 / 100) = (1 / 2 : ℚ) * (3 / 2) ∧
    calculate_adaptive_delay 0 1 (1 / 2) (1 / 10) = (1 / 2 : ℚ) ∧
    MIN_TRANSACTION_DELAY ≤ adaptive_sleep_time 0 1 0 (6 / 10) :=
  ⟨(adaptive_delay_multiplier_floor 0 1 (1 / 2) (6 / 10) (by norm_num) (by norm_num)).1
      (by norm_num),
   (adaptive_delay_multiplier_floor 0 1 (1 / 2) (35 / 100) (by norm_num) (by norm_num)).2.1
      (by norm_num) (by norm_num),
   (adaptive_delay_multiplier_floor 0 1 (1 / 2) (1 / 10) (by norm_num) (by norm_num)).2.2.1
      (by norm_num),
   (adaptive_delay_multiplier_floor 0 1 0 (6 / 10) (by norm_num) (by norm_num)).2.2.2⟩

/-- Claim C1: `request_airdrop` returns true iff at least one of its three
channels, tried in the fixed order official RPC → alternate faucets → devnet
fallback, reports success; for the primary channel an error message matching
the limit/already/funded/recent pattern counts as success; and the chain
short-circuits: the recorded invocation list stops at the first successful
channel. -/
theorem request_airdrop_first_success :
    ∀ (env : AirdropEnv),
      ((request_airdrop env).1 = true ↔
        (try_official_fogo_airdrop env.official = true ∨
         try_alternative_faucets env.alts = true ∨
         try_devnet_fallback env.devnet = true)) ∧
      (try_official_fogo_airdrop env.official = true →
        (request_airdrop env).2 = [.official]) ∧
      (try_official_fogo_airdrop env.official = false →
        try_alternative_faucets env.alts = true →
        (request_airdrop env).2 = [.official, .altFaucets]) ∧
      (try_official_fogo_airdrop env.official = false →
        try_alternative_faucets env.alts = false →
        (request_airdrop env).2 = [.official, .altFaucets, .devnet]) ∧
      (∀ msg, limitPattern msg = true →
        try_official_fogo_airdrop (.ok ⟨200, none, some msg⟩) = true) := by
  intro env
  refine ⟨?_, ?_, ?_, ?_, ?_⟩
  · unfold request_airdrop
    by_cases h1 : try_official_fogo_airdrop env.official <;>
      by_cases h2 : try_alternative_faucets env.alts <;>
        by_cases h3 : try_devnet_fallback env.devnet <;>
          simp [h1, h2, h3]
  · intro h1
    unfold request_airdrop
    rw [if_pos h1]
  · intro h1 h2
    unfold request_airdrop
    rw [if_neg (by simp [h1]), if_pos h2]
  · intro h1 h2
    unfold request_airdrop
    rw [if_neg (by simp [h1]), if_neg (by simp [h2])]
    by_cases h3 : try_devnet_fallback env.devnet <;> simp [h3]
  · intro msg h
    simp only [try_official_fogo_airdrop]
    simp [h]

/-- Claim C1 witness: with a successful official-channel response, the
airdrop succeeds and only the official channel is invoked. -/
theorem request_airdrop_first_success_witness :
    (request_airdrop airEnvOfficialOk).2 = [AirChannel.official] :=
  (request_airdrop_first_success airEnvOfficialOk).2.1 (by decide)

/-- Claim C9: no exception escapes the swap orchestrator: in the
exception-propagating semantics the body of `perform_swap` evaluates to
`Except.ok` of the value the handler-wrapped function returns, for every
environment, amount and direction. -/
theorem perform_swap_no_exception_escape :
    ∀ (env : SwapEnv) (amount_in : Nat) (direction : String),
      perform_swapBody env amount_in direction =
        Except.ok (perform_swapRun env amount_in direction) := by
  intro env amount_in direction
  have h : ∃ r, perform_swapBody env amount_in direction = .ok r := by
    simp only [perform_swapBody]
    repeat' split
    all_goals exact ⟨_, rfl⟩
  obtain ⟨r, hr⟩ := h
  rw [hr]
  unfold perform_swapRun
  rw [hr]

/-- Claim C10: `deserialize_and_sign_transaction` is total — in the
exception-propagating semantics it always evaluates to `Except.ok`, when both
signing methods fail it yields the original input bytes unchanged — and in
consequence the signing-failure `except` branch of `_execute_transaction`
(second component of the instrumented result) never runs. -/
theorem sign_total_and_fallback_unreachable :
    ∀ (env : SignEnv) (raw_tx_bytes : List Nat),
      (∃ signed, deserialize_and_sign_transactionE env raw_tx_bytes = .ok signed) ∧
      deserialize_and_sign_transactionE env raw_tx_bytes =
        .ok (deserialize_and_sign_transaction env raw_tx_bytes) ∧
      ((∃ e, env.solders = .error e) → (∃ e, env.legacy = .error e) →
        deserialize_and_sign_transaction env raw_tx_bytes = raw_tx_bytes) ∧
      (∀ (payEnv : PayEnv) (rpcEnv : RpcSendEnv) (tx_data : TxData),
        (execute_transaction env payEnv rpcEnv tx_data).2 = false) := by
  intro env raw_tx_bytes
  refine ⟨?_, ?_, ?_, ?_⟩
  · unfold deserialize_and_sign_transactionE
    repeat' split
    all_goals exact ⟨_, rfl⟩
  · unfold deserialize_and_sign_transactionE deserialize_and_sign_transaction
    rcases hs : env.solders with e | s
    · rcases hl : env.legacy with e' | s' <;> rfl
    · rfl
  · rintro ⟨e1, hs⟩ ⟨e2, hl⟩
    unfold deserialize_and_sign_transaction
    rw [hs, hl]
  · intro payEnv rpcEnv tx_data
    unfold execute_transaction
    have hE : ∃ signed, deserialize_and_sign_transactionE env tx_data.raw_tx_bytes = .ok signed := by
      unfold deserialize_and_sign_transactionE
      repeat' split
      all_goals exact ⟨_, rfl⟩
    obtain ⟨signed, hsg⟩ := hE
    rw [hsg]
    by_cases hp : (send_transaction_paymaster payEnv tx_data.raw_tx).1 <;> simp [hp]

/-- Claim C10 witness: with both signing methods raising, the original bytes
come back unchanged and the paymaster-path fallback branch is not taken. -/
theorem sign_total_and_fallback_unreachable_witness :
    deserialize_and_sign_transaction signEnvBothFail [1, 2] = [1, 2] ∧
    (execute_transaction signEnvBothFail (.exc .other) (.exc .other) ⟨"t", [1, 2]⟩).2 = false :=
  ⟨(sign_total_and_fallback_unreachable signEnvBothFail [1, 2]).2.2.1
      ⟨.other, rfl⟩ ⟨.other, rfl⟩,
   (sign_total_and_fallback_unreachable signEnvBothFail [1, 2]).2.2.2
      (.exc .other) (.exc .other) ⟨"t", [1, 2]⟩⟩

/-- One worker cycle adds exactly one outcome to the statistics. -/
theorem workerUpdate_outcome_count (stats : WorkerStats) (amount_in result : Nat) :
    (workerUpdate stats amount_in result).successful_swaps +
      (workerUpdate stats amount_in result).failed_swaps =
    stats.successful_swaps + stats.failed_swaps + 1 := by
  unfold workerUpdate
  split <;> simp <;> omega

/-- Folding the worker loop adds one outcome per cycle to any starting
statistics. -/
theorem workerLoop_count_aux :
    ∀ (cycles : List (Nat × SwapEnv)) (stats : WorkerStats),
      (cycles.foldl (fun s c => workerUpdate s c.1 (perform_swap c.2 c.1 "FOGO_TO_FUSD"))
          stats).successful_swaps +
        (cycles.foldl (fun s c => workerUpdate s c.1 (perform_swap c.2 c.1 "FOGO_TO_FUSD"))
          stats).failed_swaps =
      stats.successful_swaps + stats.failed_swaps + cycles.length := by
  intro cycles
  induction cycles with
  | nil => intro stats; simp
  | cons c rest ih =>
    intro stats
    simp only [List.foldl_cons, List.length_cons]
    rw [ih, workerUpdate_outcome_count]
    omega

/-- Claim C3: for every N ≥ 1, one worker loop over N cycles records exactly
N outcomes: at loop end `successful_swaps + failed_swaps = N`, whatever each
individual swap attempt does. -/
theorem workerLoop_outcome_count :
    ∀ (name N : Nat), 1 ≤ N →
      ∀ (cycles : List (Nat × SwapEnv)), cycles.length = N →
        (workerLoop name cycles).successful_swaps +
          (workerLoop name cycles).failed_swaps = N := by
  intro name N _ cycles hlen
  unfold workerLoop
  rw [workerLoop_count_aux]
  simpa using hlen

/-- Claim C3 witness: a single-cycle loop in an all-failing environment
records exactly one outcome. -/
theorem workerLoop_outcome_count_witness :
    1 ≤ 1 ∧ ([(100, swapEnvFail)] : List (Nat × SwapEnv)).length = 1 ∧
    (workerLoop 1 [(100, swapEnvFail)]).successful_swaps +
      (workerLoop 1 [(100, swapEnvFail)]).failed_swaps = 1 :=
  ⟨Nat.le_refl 1, rfl, workerLoop_outcome_count 1 1 (Nat.le_refl 1) [(100, swapEnvFail)] rfl⟩

/-- Claim C4: when the balance check passes and the quote and build stages
succeed, the amount returned by `perform_swap` is the value of the field
`token_min_out` if the submission pipeline reports success, again
`token_min_out` whenever it is nonzero (ambiguous submission treated as
success), and 0 otherwise. -/
theorem perform_swap_outcome_amount :
    ∀ (env : SwapEnv) (amount_in : Nat) (direction : String) (q : Quote) (t : TxData),
      (ensure_sufficient_balance env.airdrop env.balance2
        (get_balance_rpc env.balance1) amount_in).ok = true →
      get_swap_quote env.quote amount_in direction = some q →
      get_swap_transaction env.tx amount_in = some t →
      perform_swap env amount_in direction =
        (if (execute_transaction env.sign env.paymaster env.rpc t).1 = true then
          q.token_min_out
         else if q.token_min_out ≠ 0 then q.token_min_out else 0) := by
  intro env a d q t hok hq ht
  unfold perform_swap
  rw [perform_swapRun_eq]
  simp only [hok, hq, ht]
  by_cases hs : (execute_transaction env.sign env.paymaster env.rpc t).1 = true
  · simp [hs]
  · by_cases hz : q.token_min_out = 0
    · simp [hs, hz]
    · simp [hs, hz, Nat.pos_of_ne_zero hz]

/-- Claim C4 witness: in a funded environment with a successful paymaster
submission, the minimum output of the quote comes back. -/
theorem perform_swap_outcome_amount_witness :
    (ensure_sufficient_balance swapEnvOk.airdrop swapEnvOk.balance2
      (get_balance_rpc swapEnvOk.balance1) 100).ok = true ∧
    perform_swap swapEnvOk 100 "FOGO_TO_FUSD" =
      (if (execute_transaction swapEnvOk.sign swapEnvOk.paymaster swapEnvOk.rpc
            ⟨"tx64", [1, 2]⟩).1 = true then 500
       else if (500 : Nat) ≠ 0 then 500 else 0) :=
  ⟨by decide,
   perform_swap_outcome_amount swapEnvOk 100 "FOGO_TO_FUSD" ⟨500, "pool", true⟩
     ⟨"tx64", [1, 2]⟩ (by decide) rfl rfl⟩

/-- `_ensure_sufficient_balance` requests at most one airdrop. -/
theorem ensure_attempts_le_one (airdropEnv : AirdropEnv)
    (balance2Env : Except PyExc BalResp) (balance amount_in : Nat) :
    (ensure_sufficient_balance airdropEnv balance2Env balance amount_in).fundingAttempts ≤ 1 := by
  simp only [ensure_sufficient_balance]
  repeat' split
  all_goals simp

/-- Claim C6: each swap operation makes at most one funding attempt; and
when the balance is insufficient and at or below the 100000-lamport
usability threshold, funding succeeds, and the single 5-second-delayed
balance re-query still falls short of the requested amount, the operation
fails with exactly one funding attempt and nothing further. -/
theorem perform_swap_single_funding_attempt :
    ∀ (env : SwapEnv) (amount_in : Nat) (direction : String),
      (perform_swapRun env amount_in direction).2.fundingAttempts ≤ 1 ∧
      (get_balance_rpc env.balance1 < amount_in →
       get_balance_rpc env.balance1 ≤ 100000 →
       (request_airdrop env.airdrop).1 = true →
       get_balance_rpc env.balance2 < amount_in →
       perform_swap env amount_in direction = 0 ∧
       (perform_swapRun env amount_in direction).2 = ⟨1, [5], [], []⟩) := by
  intro env a d
  constructor
  · rw [perform_swapRun_fundingAttempts]
    exact ensure_attempts_le_one env.airdrop env.balance2
      (get_balance_rpc env.balance1) a
  · intro h1 h2 h3 h4
    have hf : ensure_sufficient_balance env.airdrop env.balance2
        (get_balance_rpc env.balance1) a = ⟨false, 1, [5]⟩ := by
      unfold ensure_sufficient_balance
      rw [if_neg (not_le.mpr h1), if_pos h3]
      have hd : decide (get_balance_rpc env.balance2 ≥ a) = false :=
        decide_eq_false (not_le.mpr h4)
      by_cases hb : get_balance_rpc env.balance1 > 0
      · rw [if_pos hb, if_neg (by omega)]
        simp only [hd]
      · rw [if_neg hb]
        simp only [hd]
    have hrun : perform_swapRun env a d = (0, ⟨1, [5], [], []⟩) := by
      rw [perform_swapRun_eq]
      simp [hf]
    unfold perform_swap
    rw [hrun]
    exact ⟨rfl, rfl⟩

/-- Claim C6 witness: zero balance, successful airdrop, still-zero balance
afterwards — the operation fails with exactly one funding attempt. -/
theorem perform_swap_single_funding_attempt_witness :
    perform_swap swapEnvFundShort 1000000 "FOGO_TO_FUSD" = 0 ∧
    (perform_swapRun swapEnvFundShort 1000000 "FOGO_TO_FUSD").2 =
      ⟨1, [5], [], []⟩ :=
  (perform_swap_single_funding_attempt swapEnvFundShort 1000000 "FOGO_TO_FUSD").2
    (by decide) (by decide) (by decide) (by decide)

/-- Claim C7: when the balance is positive, above the 100000-lamport
usability threshold, and below the requested amount, the orchestrator
proceeds without funding and the quote and transaction-build requests carry
the original `amount_in` — the `adjusted_amount` computation (80% of the
balance, swap.py:85) is never substituted into any request. -/
theorem perform_swap_uses_original_amount :
    ∀ (env : SwapEnv) (amount_in : Nat) (direction : String),
      100000 < get_balance_rpc env.balance1 →
      get_balance_rpc env.balance1 < amount_in →
      (perform_swapRun env amount_in direction).2.fundingAttempts = 0 ∧
      (perform_swapRun env amount_in direction).2.quoteAmounts = [amount_in] ∧
      (∀ x ∈ (perform_swapRun env amount_in direction).2.txAmounts, x = amount_in) := by
  intro env a d h1 h2
  have hf : ensure_sufficient_balance env.airdrop env.balance2
      (get_balance_rpc env.balance1) a = ⟨true, 0, []⟩ := by
    unfold ensure_sufficient_balance
    rw [if_neg (not_le.mpr h2), if_pos (by omega : get_balance_rpc env.balance1 > 0),
      if_pos h1]
  rw [perform_swapRun_eq]
  rcases hq : get_swap_quote env.quote a d with _ | q
  · simp [hf, hq]
  · rcases ht : get_swap_transaction env.tx a with _ | t
    · simp [hf, hq, ht]
    · by_cases hs : (execute_transaction env.sign env.paymaster env.rpc t).1 = true
      · simp [hf, hq, ht, hs]
      · by_cases hz : 0 < q.token_min_out <;> simp [hf, hq, ht, hs, hz]

/-- Claim C7 witness: balance 200000, requested amount 1000000 — the quote
request carries the original 1000000 and no funding is attempted. -/
theorem perform_swap_uses_original_amount_witness :
    (perform_swapRun swapEnvLowButUsable 1000000 "FOGO_TO_FUSD").2.fundingAttempts = 0 ∧
    (perform_swapRun swapEnvLowButUsable 1000000 "FOGO_TO_FUSD").2.quoteAmounts = [1000000] ∧
    (∀ x ∈ (perform_swapRun swapEnvLowButUsable 1000000 "FOGO_TO_FUSD").2.txAmounts,
      x = 1000000) :=
  perform_swap_uses_original_amount swapEnvLowButUsable 1000000 "FOGO_TO_FUSD"
    (by decide) (by decide)

end Fogo
